import Mathlib

/-!
Shallow embedding of `space_switcher_utils_v01.py`, a Maya animation utility.

The host (Maya) scene is not executable here, so every scene-mutating
`cmds.*` call is modelled as an explicit `SceneOp` event; each Python
function that mutates the scene is embedded as a Lean function returning
the ordered list of scene operations it issues, together with its result.
Host *queries* (`cmds.ls`, `cmds.getAttr(lock=True)`, playback ranges,
bounding boxes) become explicit parameters: the current selection, the set
of node names present in the scene, and the set of locked channels.
Floating-point quantities (controller size, bake times, bounding boxes)
are carried as `Rat` where a value is needed and are never computed with
host data; no claim below depends on their numeric values.
-/

namespace SpaceSwitcherUtils

/-- The kinds of Maya constraint nodes the tool creates
(`cmds.pointConstraint`, `orientConstraint`, `scaleConstraint`,
`parentConstraint`, `aimConstraint`). -/
inductive ConstKind where
  | point
  | orient
  | scale
  | parent
  | aim
deriving DecidableEq, Repr

/-- One scene-mutating host call, in the order the Python code issues them.
Read-only host queries are not events. `cmds.undoInfo` chunk bookkeeping is
also not a scene mutation and is omitted. -/
inductive SceneOp where
  /-- `cmds.circle(name=...)` -/
  | createCurve (name : String)
  /-- `cmds.xform(node, ...)` (rotation or scale applied to a named node) -/
  | xformNode (name : String)
  /-- the CV-selection loop in `_manipulate_cc` (`cmds.select` on CVs) -/
  | selectCVs (name : String)
  /-- `cmds.hilite(node)` -/
  | hiliteNode (name : String)
  /-- `cmds.hilite(node, unHilite=True)` -/
  | unhiliteNode (name : String)
  /-- `cmds.select(clear=True)` -/
  | clearSelection
  /-- `cmds.xform(scale=[v, v, v])` applied to the selected CVs -/
  | xformScaleCVs (value : Rat)
  /-- `cmds.delete(node, constructionHistory=True)` -/
  | deleteHistory (name : String)
  /-- `cmds.makeIdentity(node, apply=True)` -/
  | makeIdentity (name : String)
  /-- `cmds.setAttr(attr, value)` -/
  | setAttr (attr : String) (value : Nat)
  /-- `cmds.group(...)` -/
  | createGroup (name : String)
  /-- `cmds.parent(child, parent)` -/
  | parentUnder (child : String) (par : String)
  /-- creation of a constraint node driving `driven` from `driver` -/
  | createConstraint (kind : ConstKind) (driver : String) (driven : String)
  /-- deletion of a constraint node driving `driven` from `driver` -/
  | deleteConstraint (kind : ConstKind) (driver : String) (driven : String)
  /-- `_break_connections`: `cmds.delete(obj.channelAxis, inputConnectionsAndNodes=True)`
  over the three axes of one channel -/
  | breakConnections (obj : String) (channel : String)
  /-- `cmds.bakeResults(obj, ...)` -/
  | bakeResults (obj : String)
  /-- the loop in `_bake_anim` deleting all constraint children of `obj` -/
  | deleteChildConstraints (obj : String)
  /-- `cmds.delete(node)` -/
  | deleteNode (name : String)
deriving DecidableEq, Repr

/-- Result of one user-triggered action: a `cmds.warning` (the action
returns early), an uncaught Python exception (`cmds.error` or a raised
`ValueError`), or normal completion. -/
inductive Outcome where
  | warned (msg : String)
  | errored (msg : String)
  | ok
deriving DecidableEq, Repr

/-- `clean(object, delete_history, freeze_transforms)` (module level). -/
def clean (object : String) (delete_history : Bool) (freeze_transforms : Bool) :
    List SceneOp :=
  (if delete_history then [SceneOp.deleteHistory object] else []) ++
  (if freeze_transforms then [SceneOp.makeIdentity object] else [])

/-- `snap_to(children, parent, loc, rot, scl)` (module level): per child and
per enabled channel, create a constraint from `parent` and immediately
delete it. The Python single-string case (`type(children) == str`) is the
singleton-list call. -/
def snap_to (children : List String) (parent : String)
    (loc rot scl : Bool) : List SceneOp :=
  (children.map (fun child =>
    (if loc then [SceneOp.createConstraint ConstKind.point parent child,
                  SceneOp.deleteConstraint ConstKind.point parent child] else []) ++
    (if rot then [SceneOp.createConstraint ConstKind.orient parent child,
                  SceneOp.deleteConstraint ConstKind.orient parent child] else []) ++
    (if scl then [SceneOp.createConstraint ConstKind.scale parent child,
                  SceneOp.deleteConstraint ConstKind.scale parent child] else []))).flatten

/-- `snap_to_selected(loc, rot, scl)` (module level): warns and does nothing
when fewer than two objects are selected, otherwise snaps all selected
objects but the last to the last. -/
def snap_to_selected (selection : List String) (loc rot scl : Bool) :
    Outcome × List SceneOp :=
  if selection.length < 2 then
    (Outcome.warned "At least two objects must be selected.", [])
  else
    (Outcome.ok,
     snap_to selection.dropLast (selection.getLastD "") loc rot scl)

/-- The `TempControl` object: the attributes set by `TempControl.__init__`. -/
structure TempControl where
  parent_object : String
  child_object : String
  name : String
  grp_name : String
  shape : String
  orient : String
  orient_negative : Bool
  cc_color : String
  size : Rat
  bake_anim : Bool
  smart_bake : Bool
  time_range : String
  constrain_loc : Bool
  constrain_rot : Bool
  constrain_scl : Bool
  constrain_aim : Bool
deriving DecidableEq, Repr

/-- `TempControl._get_relations`: classifies the current selection into a
`(parent_object, child_object)` pair, with `"#world"` as the world-space
sentinel parent; `cmds.error` (an exception) on 0 or more than 2 objects. -/
def get_relations (selections : List String) :
    Except String (String × String) :=
  match selections with
  | [] => Except.error "At least one object must be selected"
  | [child] => Except.ok ("#world", child)
  | [par, child] => Except.ok (par, child)
  | _ => Except.error "No more than 2 objects must be selected"

/-- The candidate controller name tried at iteration `i` of the
`_make_namespace` while loop: `child + "_tmp_CC"` first, then
`child + "_tmp_CC_" + str(i)`. -/
def candidate_name (child : String) (i : Nat) : String :=
  if i = 0 then child ++ "_tmp_CC" else child ++ "_tmp_CC_" ++ toString i

/-- The `_make_namespace` while loop (`while cmds.ls(default_name) != []`),
with the scene modelled as the list of existing node names and explicit
fuel for the unbounded search. -/
def make_namespace_loop (scene : List String) (child : String) :
    Nat → Nat → Option String
  | 0, _ => none
  | fuel + 1, i =>
      if candidate_name child i ∈ scene then
        make_namespace_loop scene child fuel (i + 1)
      else
        some (candidate_name child i)

/-- `TempControl._make_namespace`: the first candidate name absent from the
scene. -/
def make_namespace (scene : List String) (child : String) (fuel : Nat) :
    Option String :=
  make_namespace_loop scene child fuel 0

/-- The valid shape names accepted by `_create_cc_shape`. -/
def valid_shapes : List String := ["circle", "square", "diamond"]

/-- The `ValueError` message raised by `_create_cc_shape` for an invalid
shape (a representation of the tuple is appended in Python). -/
def shape_error_msg : String :=
  "Shape parameter must be one of the following: " ++ toString valid_shapes

/-- The color palette of `_color_cc` with Maya override-color indices. -/
def valid_colors : List (String × Nat) :=
  [("red", 13), ("green", 14), ("yellow", 17), ("blue", 6), ("pink", 9)]

/-- The `ValueError` message raised by `_color_cc` for an invalid color
(the spelling "folloiwng" is the source's own). -/
def color_error_msg : String :=
  "Color parameter must be one of the folloiwng: " ++
    toString (valid_colors.map (fun c => c.1))

/-- `TempControl._create_circle_cc`: creates the circle curve, re-orients
it off the default world-Z axis for `"x"`/`"y"`, then cleans it. -/
def create_circle_cc (tc : TempControl) : List SceneOp :=
  [SceneOp.createCurve tc.name] ++
  (if tc.orient = "x" then [SceneOp.xformNode tc.name] else []) ++
  (if tc.orient = "y" then [SceneOp.xformNode tc.name] else []) ++
  clean tc.name true true

/-- `TempControl._manipulate_cc`: creates a circle, then scales every other
CV by `scale_value` (1.5 for the square, 0 for the diamond). -/
def manipulate_cc (tc : TempControl) (scale_value : Rat) : List SceneOp :=
  create_circle_cc tc ++
  [SceneOp.selectCVs tc.name,
   SceneOp.hiliteNode tc.name,
   SceneOp.xformScaleCVs scale_value,
   SceneOp.unhiliteNode tc.name,
   SceneOp.clearSelection]

/-- `TempControl._color_cc`: raises a `ValueError` for an unknown color,
otherwise enables drawing overrides and sets the override color on the
controller's shape node. Returns the ops issued and the error, if any. -/
def color_cc (tc : TempControl) : List SceneOp × Option String :=
  match valid_colors.lookup tc.cc_color with
  | none => ([], some color_error_msg)
  | some idx =>
      ([SceneOp.setAttr (tc.name ++ "Shape.overrideEnabled") 1,
        SceneOp.setAttr (tc.name ++ "Shape.overrideColor") idx], none)

/-- `TempControl._set_tmp_cc_size`: reads the child's bounding box (a host
query), scales the controller by the derived value, then cleans it. -/
def set_tmp_cc_size (tc : TempControl) : List SceneOp :=
  [SceneOp.xformNode tc.name] ++ clean tc.name true true

/-- `TempControl._create_cc_shape`: validates the shape name (raising
before any op), builds the curve for the chosen shape, then colors it
(where an invalid color raises) and sizes it. -/
def create_cc_shape (tc : TempControl) : List SceneOp × Option String :=
  if tc.shape ∈ valid_shapes then
    let shape_ops :=
      (if tc.shape = "circle" then create_circle_cc tc else []) ++
      (if tc.shape = "square" then manipulate_cc tc (3 / 2) else []) ++
      (if tc.shape = "diamond" then manipulate_cc tc 0 else [])
    match color_cc tc with
    | (color_ops, some e) => (shape_ops ++ color_ops, some e)
    | (color_ops, none) =>
        (shape_ops ++ color_ops ++ set_tmp_cc_size tc, none)
  else
    ([], some shape_error_msg)

/-- `TempControl._setup_aim_cc`: offsets the controller along its
orientation axis (`cmds.xform`, relative translation) and parent-constrains
it to the child with the offset maintained. -/
def setup_aim_cc (tc : TempControl) : List SceneOp :=
  [SceneOp.xformNode tc.name,
   SceneOp.createConstraint ConstKind.parent tc.child_object tc.name]

/-- `TempControl._create_hierarchy`: groups the controller, optionally
parents the group under the master group, snaps the controller to the
child, parent-constrains the group to a non-world parent, and constrains
the controller to the child per enabled channel. -/
def create_hierarchy (tc : TempControl) (master_grp : Option String) :
    List SceneOp :=
  [SceneOp.createGroup tc.grp_name] ++
  (match master_grp with
   | some m => [SceneOp.parentUnder tc.grp_name m]
   | none => []) ++
  snap_to [tc.name] tc.child_object true true true ++
  (if tc.parent_object ≠ "#world" then
     [SceneOp.createConstraint ConstKind.parent tc.parent_object tc.grp_name]
   else []) ++
  (if tc.constrain_loc then
     [SceneOp.createConstraint ConstKind.point tc.child_object tc.name]
   else []) ++
  (if tc.constrain_rot then
     [SceneOp.createConstraint ConstKind.orient tc.child_object tc.name]
   else []) ++
  (if tc.constrain_scl then
     [SceneOp.createConstraint ConstKind.scale tc.child_object tc.name]
   else []) ++
  (if tc.constrain_aim then setup_aim_cc tc else [])

/-- `TempControl._add_inverse_consts`: adds child→controller constraints on
channels not chosen for control; the source's comment excludes aim
controllers from the inverse point/orient constraints only, and the scale
branch does not test `constrain_aim`. -/
def add_inverse_consts (tc : TempControl) : List SceneOp :=
  (if !tc.constrain_loc && !tc.constrain_aim then
     [SceneOp.createConstraint ConstKind.point tc.child_object tc.name]
   else []) ++
  (if !tc.constrain_rot && !tc.constrain_aim then
     [SceneOp.createConstraint ConstKind.orient tc.child_object tc.name]
   else []) ++
  (if !tc.constrain_scl then
     [SceneOp.breakConnections tc.name "scale",
      SceneOp.createConstraint ConstKind.scale tc.child_object tc.name]
   else [])

/-- `TempControl._bake_anim`: bakes the object over the resolved time range
and, when `delete_consts`, deletes the object's constraint children. -/
def bake_anim (object : String) (delete_consts : Bool) : List SceneOp :=
  [SceneOp.bakeResults object] ++
  (if delete_consts then [SceneOp.deleteChildConstraints object] else [])

/-- `TempControl.bake_child_anim`: bakes the child object, keeping its
constraints (`delete_consts=False`). -/
def bake_child_anim (tc : TempControl) : List SceneOp :=
  bake_anim tc.child_object false

/-- `TempControl.kill_hierarchy`: deletes the controller group (and with it
the whole temp-control hierarchy). -/
def kill_hierarchy (tc : TempControl) : List SceneOp :=
  [SceneOp.deleteNode tc.grp_name]

/-- `TempControl._const_child_to_tmp_cc`: constrains the child to the
controller per enabled channel. -/
def const_child_to_tmp_cc (tc : TempControl) : List SceneOp :=
  (if tc.constrain_loc then
     [SceneOp.createConstraint ConstKind.point tc.name tc.child_object]
   else []) ++
  (if tc.constrain_rot then
     [SceneOp.createConstraint ConstKind.orient tc.name tc.child_object]
   else []) ++
  (if tc.constrain_scl then
     [SceneOp.breakConnections tc.child_object "scale",
      SceneOp.createConstraint ConstKind.scale tc.name tc.child_object]
   else []) ++
  (if tc.constrain_aim then
     [SceneOp.createConstraint ConstKind.aim tc.name tc.child_object]
   else [])

/-- `TempControl._get_time_range`: only resolves the three known range
names, raising a `ValueError` otherwise; the resolved numeric times are
host queries and are not needed by any claim. -/
def get_time_range (tc : TempControl) : Option String :=
  if tc.time_range = "time slider" then none
  else if tc.time_range = "start/end" then none
  else if tc.time_range = "none" then none
  else some ("Invalid time range: _get_time_range() only" ++
             "accepts time slider and start/end")

/-- The channels `_get_locked_transforms` inspects, as selected by the
constraint-type flags. -/
def transforms_for (tc : TempControl) : List String :=
  (if tc.constrain_loc then ["translate"] else []) ++
  (if tc.constrain_rot || tc.constrain_aim then ["rotate"] else []) ++
  (if tc.constrain_scl then ["scale"] else [])

/-- The axis suffixes iterated by `_get_locked_transforms`. -/
def axes_list : List String := ["X", "Y", "Z"]

/-- The host's `cmds.getAttr(f"{object}.{attr}", lock=True)` query, with the
scene's locked channels given as `(object, attribute)` pairs. -/
def lock_query (locked : List (String × String)) (object attr : String) :
    Bool :=
  decide ((object, attr) ∈ locked)

/-- `TempControl._get_locked_transforms`: the locked channels of the child
object among the channels selected for constraint, in channel-major,
axis-minor order. -/
def get_locked_transforms (tc : TempControl)
    (locked : List (String × String)) : List String :=
  ((transforms_for tc).map (fun t =>
    (axes_list.filter (fun a =>
      lock_query locked tc.child_object (t ++ a))).map (fun a => t ++ a))).flatten

/-- The warning issued by `TempControl.create_temp_ctrl` for locked
channels (the missing space after the closing quote is the source's own). -/
def locked_warning_msg (tc : TempControl) (lt : List String) : String :=
  "The child object \x27" ++ tc.child_object ++
    "\x27has locked transformation channels: " ++ toString lt

/-- `TempControl.create_temp_ctrl`: aborts with a warning (and no ops) when
the child has locked channels among the selected ones, then builds the
shape (validation errors abort with the ops issued so far), builds the
hierarchy, resolves the time range, bakes the controller deleting its
constraints, adds inverse constraints, and constrains the child. -/
def TempControl.create_temp_ctrl (tc : TempControl)
    (locked : List (String × String)) (master_grp : Option String) :
    List SceneOp × Outcome :=
  let lt := get_locked_transforms tc locked
  if lt ≠ [] then
    ([], Outcome.warned (locked_warning_msg tc lt))
  else
    match create_cc_shape tc with
    | (shape_ops, some e) => (shape_ops, Outcome.errored e)
    | (shape_ops, none) =>
        let hier_ops := create_hierarchy tc master_grp
        match get_time_range tc with
        | some e => (shape_ops ++ hier_ops, Outcome.errored e)
        | none =>
            (shape_ops ++ hier_ops ++ SpaceSwitcherUtils.bake_anim tc.name true ++
               add_inverse_consts tc ++ const_child_to_tmp_cc tc,
             Outcome.ok)

/-- The user parameters collected by `_get_temp_cc_user_params` and passed
to `SpaceSwitcher.create_new_temp_ctrl`. -/
structure Params where
  loc : Bool
  rot : Bool
  scl : Bool
  aim : Bool
  color : String
  shape : String
  orient : String
  size : Rat
  orient_negative : Bool
  smart_bake : Bool
  time_range : String
deriving DecidableEq, Repr

/-- `TempControl.__init__`: resolves the (parent, child) relation from the
selection (`cmds.error` on a bad count), generates the unique name and the
group name, and records the parameters. `none` means the name-search fuel
ran out (cannot happen in the host, whose loop just keeps incrementing). -/
def TempControl.init (p : Params) (selection scene : List String)
    (fuel : Nat) : Except String (Option TempControl) :=
  match get_relations selection with
  | Except.error e => Except.error e
  | Except.ok (par, child) =>
      match make_namespace scene child fuel with
      | none => Except.ok none
      | some nm =>
          Except.ok (some
            { parent_object := par
              child_object := child
              name := nm
              grp_name := nm.replace "tmp_CC" "tmp_cc_GRP"
              shape := p.shape
              orient := p.orient
              orient_negative := p.orient_negative
              cc_color := p.color
              size := p.size
              bake_anim := true
              smart_bake := p.smart_bake
              time_range := p.time_range
              constrain_loc := p.loc
              constrain_rot := p.rot
              constrain_scl := p.scl
              constrain_aim := p.aim })

/-- One `{"name": ..., "object": ...}` dict stored in
`SpaceSwitcher.temp_controllers`. -/
structure RegistryEntry where
  name : String
  object : TempControl
deriving DecidableEq, Repr

/-- The `SpaceSwitcher` registry object. -/
structure SpaceSwitcher where
  master_grp : String
  temp_controllers : List RegistryEntry
deriving DecidableEq, Repr

/-- `SpaceSwitcher.create_new_temp_ctrl`: instantiates a `TempControl`,
lazily creates the master group when `cmds.ls` finds none, runs
`TempControl.create_temp_ctrl`, and appends the registry entry. A raised
exception (`Outcome.errored`) propagates before the append; a locked-channel
warning does not, so the entry is appended even then. -/
def SpaceSwitcher.create_new_temp_ctrl (sw : SpaceSwitcher) (p : Params)
    (selection scene : List String) (locked : List (String × String))
    (fuel : Nat) : Option (SpaceSwitcher × List SceneOp × Outcome) :=
  match TempControl.init p selection scene fuel with
  | Except.error e => some (sw, [], Outcome.errored e)
  | Except.ok none => none
  | Except.ok (some tc) =>
      let master_ops :=
        if sw.master_grp ∈ scene then []
        else [SceneOp.createGroup sw.master_grp]
      match tc.create_temp_ctrl locked (some sw.master_grp) with
      | (ops, Outcome.errored e) =>
          some (sw, master_ops ++ ops, Outcome.errored e)
      | (ops, out) =>
          some ({ sw with
                    temp_controllers :=
                      sw.temp_controllers ++ [⟨tc.name, tc⟩] },
                master_ops ++ ops, out)

/-- The `SpaceSwitcherUI` state the managed-controls panel reads and
writes: the `bake_down` flag, the `QComboBox` items with its current
index, and the `SpaceSwitcher` registry. -/
structure UIState where
  bake_down : Bool
  combo_items : List String
  combo_index : Nat
  space_switcher : SpaceSwitcher
deriving DecidableEq, Repr

/-- `QComboBox.currentText()`: the item at the current index, or the empty
string when the index is out of range. -/
def current_text (st : UIState) : String :=
  st.combo_items.getD st.combo_index ""

/-- `SpaceSwitcherUI.delete_temp_cc`: looks up the first registry entry
matching the combo box's current text, optionally bakes the child
(`bake_down`), kills the controller hierarchy, resets `bake_down`, and
removes the current combo box item. The registry list itself is never
modified. -/
def delete_temp_cc (st : UIState) : UIState × List SceneOp :=
  let selected := current_text st
  let ops :=
    match st.space_switcher.temp_controllers.find?
        (fun e => e.name == selected) with
    | some e =>
        (if st.bake_down then bake_child_anim e.object else []) ++
          kill_hierarchy e.object
    | none => []
  ({ st with
       bake_down := false
       combo_items := st.combo_items.eraseIdx st.combo_index },
   ops)

/-- `SpaceSwitcherUI.bake_back_anim`: sets `bake_down` and delegates to
`delete_temp_cc`. -/
def bake_back_anim (st : UIState) : UIState × List SceneOp :=
  delete_temp_cc { st with bake_down := true }

/-- `SpaceSwitcherUI.create_temp_ctrl` (the "Create Temp Controller!"
slot): warns and aborts on 0 or more than 2 selected objects before
anything else, otherwise collects the parameters, creates the controller
through the registry, and appends the new entry's name to the combo box
(skipped when an exception propagated). -/
def SpaceSwitcherUI.create_temp_ctrl (selection scene : List String)
    (locked : List (String × String)) (p : Params) (st : UIState)
    (fuel : Nat) : Option (UIState × List SceneOp × Outcome) :=
  if selection.length < 1 then
    some (st, [], Outcome.warned "At least one object must be selected.")
  else if selection.length > 2 then
    some (st, [], Outcome.warned "No more than two objects must be selected.")
  else
    match st.space_switcher.create_new_temp_ctrl p selection scene locked
        fuel with
    | none => none
    | some (sw, ops, Outcome.errored e) =>
        some ({ st with space_switcher := sw }, ops, Outcome.errored e)
    | some (sw, ops, out) =>
        some ({ st with
                  space_switcher := sw
                  combo_items :=
                    st.combo_items ++
                      [((sw.temp_controllers.getLast?).map
                          (fun e => e.name)).getD ""] },
              ops, out)

/-- The four constraint-type `QCheckBox`es of the options panel. -/
structure ConstTypeOptions where
  loc_chk : Bool
  rot_chk : Bool
  scl_chk : Bool
  aim_chk : Bool
deriving DecidableEq, Repr

/-- The checkbox defaults from `_add_tmp_ctrl_const_type_options`
(`Location` and `Rotation` start checked). -/
def init_const_type_options : ConstTypeOptions :=
  { loc_chk := true, rot_chk := true, scl_chk := false, aim_chk := false }

/-- `temp_cc_opt_const_type_mutual_exclusion_aim`: when the aim box is
checked, uncheck location and rotation. -/
def mutual_exclusion_aim (s : ConstTypeOptions) : ConstTypeOptions :=
  if s.aim_chk then { s with loc_chk := false, rot_chk := false } else s

/-- `temp_cc_opt_const_type_mutual_exclusion_loc_rot`: when location or
rotation is checked, uncheck aim. -/
def mutual_exclusion_loc_rot (s : ConstTypeOptions) : ConstTypeOptions :=
  if s.loc_chk || s.rot_chk then { s with aim_chk := false } else s

/-- A user click on one of the four checkboxes. -/
inductive CheckboxClick where
  | loc
  | rot
  | scl
  | aim
deriving DecidableEq, Repr

/-- A Qt click first toggles the clicked box, then fires the connected
slot (`clicked` is not re-emitted by the programmatic `setChecked`); the
scale box has no connected slot. -/
def click (s : ConstTypeOptions) : CheckboxClick → ConstTypeOptions
  | CheckboxClick.loc => mutual_exclusion_loc_rot { s with loc_chk := !s.loc_chk }
  | CheckboxClick.rot => mutual_exclusion_loc_rot { s with rot_chk := !s.rot_chk }
  | CheckboxClick.scl => { s with scl_chk := !s.scl_chk }
  | CheckboxClick.aim => mutual_exclusion_aim { s with aim_chk := !s.aim_chk }

/-- A sequence of user clicks applied in order. -/
def run_clicks (s : ConstTypeOptions) (cs : List CheckboxClick) :
    ConstTypeOptions :=
  cs.foldl click s

/-- The forbidden combination: aim together with location or rotation. -/
def aim_conflict (s : ConstTypeOptions) : Bool :=
  s.aim_chk && (s.loc_chk || s.rot_chk)

/-- `true` for ops that do not create a group or constraint node. -/
def no_group_or_constraint : SceneOp → Bool
  | SceneOp.createGroup _ => false
  | SceneOp.createConstraint _ _ _ => false
  | _ => true

/-- `true` exactly for `cmds.bakeResults` calls. -/
def is_bake : SceneOp → Bool
  | SceneOp.bakeResults _ => true
  | _ => false

/-- A concrete controller over a child `pCube1`, as `TempControl.__init__`
would build it for a one-object selection with the UI defaults. -/
def sample_tc : TempControl :=
  { parent_object := "#world"
    child_object := "pCube1"
    name := "pCube1_tmp_CC"
    grp_name := "pCube1_tmp_cc_GRP"
    shape := "circle"
    orient := "x"
    orient_negative := false
    cc_color := "pink"
    size := 1
    bake_anim := true
    smart_bake := false
    time_range := "time slider"
    constrain_loc := true
    constrain_rot := true
    constrain_scl := false
    constrain_aim := false }

/-- `sample_tc` with an invalid color name. -/
def c2_tc : TempControl := { sample_tc with cc_color := "purple" }

/-- `sample_tc` with an invalid shape name. -/
def c2_shape_tc : TempControl := { sample_tc with shape := "triangle" }

/-- `sample_tc` in aim mode (location/rotation/scale all unchosen). -/
def c3_tc : TempControl :=
  { sample_tc with
      constrain_loc := false
      constrain_rot := false
      constrain_scl := false
      constrain_aim := true }

/-- A UI state whose registry and combo box hold exactly `sample_tc`. -/
def c1_state : UIState :=
  { bake_down := false
    combo_items := ["pCube1_tmp_CC"]
    combo_index := 0
    space_switcher :=
      { master_grp := "__space_switch_master__"
        temp_controllers := [⟨"pCube1_tmp_CC", sample_tc⟩] } }

/-- The UI-default creation parameters. -/
def sample_params : Params :=
  { loc := true
    rot := true
    scl := false
    aim := false
    color := "pink"
    shape := "circle"
    orient := "x"
    size := 1
    orient_negative := false
    smart_bake := false
    time_range := "time slider" }

/-- A freshly opened UI: empty registry and combo box. -/
def empty_ui_state : UIState :=
  { bake_down := false
    combo_items := []
    combo_index := 0
    space_switcher :=
      { master_grp := "__space_switch_master__"
        temp_controllers := [] } }

/-- Any single click issued from a conflict-free checkbox state leaves the
state conflict-free. -/
theorem aim_conflict_click (s : ConstTypeOptions) (c : CheckboxClick)
    (h : aim_conflict s = false) : aim_conflict (click s c) = false := by
  rcases s with ⟨l, r, sc, a⟩
  revert h
  cases c <;> cases l <;> cases r <;> cases sc <;> cases a <;> decide

/-- Click sequences preserve conflict-freedom. -/
theorem aim_conflict_run_clicks (cs : List CheckboxClick)
    (s : ConstTypeOptions) (h : aim_conflict s = false) :
    aim_conflict (run_clicks s cs) = false := by
  induction cs generalizing s with
  | nil => exact h
  | cons c cs ih => exact ih (click s c) (aim_conflict_click s c h)

/-- **C5.** For a selection of exactly 1 object, `_get_relations` resolves
the parent to the world sentinel `"#world"` and the selected object to the
child; for exactly 2, the parent is the first selected object and the
child is the second. -/
theorem C5_parent_child_resolution (p c : String) :
    get_relations [c] = Except.ok ("#world", c) ∧
    get_relations [p, c] = Except.ok (p, c) :=
  ⟨rfl, rfl⟩

/-- **C7.** After any sequence of user clicks from the panel's initial
checkbox state, the aim option is never checked together with location or
rotation; moreover a click on the aim box, or on the location or rotation
box, leaves a conflict-free state no matter what state it starts from
(checking aim unchecks location and rotation, and checking location or
rotation unchecks aim). -/
theorem C7_aim_mutual_exclusion (cs : List CheckboxClick)
    (s : ConstTypeOptions) :
    aim_conflict (run_clicks init_const_type_options cs) = false ∧
    aim_conflict (click s CheckboxClick.aim) = false ∧
    aim_conflict (click s CheckboxClick.loc) = false ∧
    aim_conflict (click s CheckboxClick.rot) = false := by
  refine ⟨aim_conflict_run_clicks cs init_const_type_options (by decide),
          ?_, ?_, ?_⟩ <;>
    (rcases s with ⟨l, r, sc, a⟩; cases l <;> cases r <;> cases sc <;>
      cases a <;> decide)

/-- **C1.** Evaluation of the delete action at a registry holding exactly
one controller: the Maya hierarchy is deleted and the combo-box entry is
removed, but the `SpaceSwitcher.temp_controllers` registry still contains
the entry with the deleted controller's name — `delete_temp_cc` never
removes the registry entry its own docstring says it deletes. -/
theorem C1_delete_keeps_registry_entry :
    (delete_temp_cc c1_state).2 = [SceneOp.deleteNode "pCube1_tmp_cc_GRP"] ∧
    (delete_temp_cc c1_state).1.combo_items = [] ∧
    ((delete_temp_cc c1_state).1.space_switcher.temp_controllers.map
        (fun e => e.name)) = ["pCube1_tmp_CC"] := by
  refine ⟨rfl, rfl, rfl⟩

/-- **C3 counterexample.** For an aim-mode controller with no channel
chosen for control, the claim fails twice over: location is not chosen yet
no inverse location constraint is added, and aim mode is enabled yet an
inverse scale constraint *is* added. -/
theorem C3_aim_scale_inverse_counterexample :
    c3_tc.constrain_aim = true ∧
    c3_tc.constrain_loc = false ∧
    c3_tc.constrain_scl = false ∧
    decide (SceneOp.createConstraint ConstKind.point "pCube1" "pCube1_tmp_CC"
      ∈ add_inverse_consts c3_tc) = false ∧
    decide (SceneOp.createConstraint ConstKind.scale "pCube1" "pCube1_tmp_CC"
      ∈ add_inverse_consts c3_tc) = true := by
  decide

/-- **C3 (amended).** An inverse location (resp. rotation) constraint from
the child to the proxy is added exactly when that channel is not chosen
for control *and* aim mode is disabled; an inverse scale constraint is
added exactly when scale is not chosen, regardless of aim mode — so aim
mode excludes only the location and rotation inverse constraints. -/
theorem C3_inverse_constraint_channels (tc : TempControl) :
    decide (SceneOp.createConstraint ConstKind.point tc.child_object tc.name
        ∈ add_inverse_consts tc) =
      (!tc.constrain_loc && !tc.constrain_aim) ∧
    decide (SceneOp.createConstraint ConstKind.orient tc.child_object tc.name
        ∈ add_inverse_consts tc) =
      (!tc.constrain_rot && !tc.constrain_aim) ∧
    decide (SceneOp.createConstraint ConstKind.scale tc.child_object tc.name
        ∈ add_inverse_consts tc) = !tc.constrain_scl := by
  rcases tc with ⟨po, co, nm, gn, sh, orn, oneg, col, sz, ba, sb, tr, l, r, s, a⟩
  cases l <;> cases r <;> cases s <;> cases a <;>
    simp [add_inverse_consts]

/-- `clean` never creates a group or constraint node. -/
theorem clean_no_group_or_constraint (nm : String) (d f : Bool) :
    (clean nm d f).all no_group_or_constraint = true := by
  cases d <;> cases f <;> simp [clean, no_group_or_constraint]

/-- `_create_circle_cc` never creates a group or constraint node. -/
theorem create_circle_cc_no_group_or_constraint (tc : TempControl) :
    (create_circle_cc tc).all no_group_or_constraint = true := by
  by_cases h1 : tc.orient = "x" <;> by_cases h2 : tc.orient = "y" <;>
    simp [create_circle_cc, clean, no_group_or_constraint, h1, h2]

/-- `_manipulate_cc` never creates a group or constraint node. -/
theorem manipulate_cc_no_group_or_constraint (tc : TempControl) (v : Rat) :
    (manipulate_cc tc v).all no_group_or_constraint = true := by
  simp [manipulate_cc, create_circle_cc_no_group_or_constraint,
    no_group_or_constraint]

/-- The controller curve op is in the `_create_circle_cc` trace. -/
theorem create_circle_cc_mem_curve (tc : TempControl) :
    SceneOp.createCurve tc.name ∈ create_circle_cc tc := by
  simp [create_circle_cc]

/-- An op satisfying `no_group_or_constraint` is neither a group creation
nor a constraint creation. -/
theorem no_group_or_constraint_spec (op : SceneOp)
    (h : no_group_or_constraint op = true) :
    (∀ n, op ≠ SceneOp.createGroup n) ∧
    (∀ k d v, op ≠ SceneOp.createConstraint k d v) := by
  cases op <;> simp_all [no_group_or_constraint]

/-- **C2 counterexample.** An invalid color name with a valid shape: the
creation raises the color `ValueError`, but only after the controller
curve has been created — the claim that the validation error precedes any
scene mutation is false for colors. -/
theorem C2_color_validated_after_curve_counterexample :
    (c2_tc.create_temp_ctrl [] none).2 = Outcome.errored color_error_msg ∧
    decide (SceneOp.createCurve "pCube1_tmp_CC"
      ∈ (c2_tc.create_temp_ctrl [] none).1) = true := by
  decide

/-- **C2 (amended).** When the locked-channel check passes, an invalid
shape name raises a validation error before any scene operation at all;
an invalid color name (with a valid shape) raises a validation error
before any group or constraint node is created, but after the controller
curve has been created. -/
theorem C2_shape_color_validation (tc : TempControl)
    (locked : List (String × String)) (mg : Option String)
    (hlt : get_locked_transforms tc locked = []) :
    (tc.shape ∉ valid_shapes →
      tc.create_temp_ctrl locked mg = ([], Outcome.errored shape_error_msg)) ∧
    (tc.shape ∈ valid_shapes → valid_colors.lookup tc.cc_color = none →
      (tc.create_temp_ctrl locked mg).2 = Outcome.errored color_error_msg ∧
      SceneOp.createCurve tc.name ∈ (tc.create_temp_ctrl locked mg).1 ∧
      ∀ op ∈ (tc.create_temp_ctrl locked mg).1,
        (∀ n, op ≠ SceneOp.createGroup n) ∧
        (∀ k d v, op ≠ SceneOp.createConstraint k d v)) := by
  constructor
  · intro hshape
    simp [TempControl.create_temp_ctrl, hlt, create_cc_shape, hshape]
  · intro hshape hcolor
    have hres : tc.create_temp_ctrl locked mg =
        ((if tc.shape = "circle" then create_circle_cc tc else []) ++
         (if tc.shape = "square" then manipulate_cc tc (3 / 2) else []) ++
         (if tc.shape = "diamond" then manipulate_cc tc 0 else []),
         Outcome.errored color_error_msg) := by
      simp [TempControl.create_temp_ctrl, hlt, create_cc_shape, hshape,
        color_cc, hcolor]
    have hall : ((tc.create_temp_ctrl locked mg).1).all
        no_group_or_constraint = true := by
      rw [hres]
      simp only [List.all_append, Bool.and_eq_true]
      refine ⟨⟨?_, ?_⟩, ?_⟩ <;>
        (split <;>
          simp [create_circle_cc_no_group_or_constraint,
            manipulate_cc_no_group_or_constraint])
    refine ⟨by rw [hres], ?_, ?_⟩
    · rw [hres]
      have h3 : tc.shape = "circle" ∨ tc.shape = "square" ∨
          tc.shape = "diamond" := by
        simpa [valid_shapes] using hshape
      rcases h3 with h | h | h <;>
        simp [h, create_circle_cc_mem_curve, manipulate_cc,
          create_circle_cc_mem_curve tc]
    · intro op hop
      exact no_group_or_constraint_spec op
        ((List.all_eq_true.mp hall) op hop)

/-- **C2 witness.** The amended theorem evaluated at the two concrete
invalid inputs. -/
theorem C2_shape_color_validation_witness :
    (c2_shape_tc.create_temp_ctrl [] none =
      ([], Outcome.errored shape_error_msg)) ∧
    ((c2_tc.create_temp_ctrl [] none).2 = Outcome.errored color_error_msg ∧
      SceneOp.createCurve c2_tc.name ∈ (c2_tc.create_temp_ctrl [] none).1) := by
  have ha := (C2_shape_color_validation c2_shape_tc [] none (by decide)).1
    (by decide)
  have hb := (C2_shape_color_validation c2_tc [] none (by decide)).2
    (by decide) (by decide)
  exact ⟨ha, hb.1, hb.2.1⟩

/-- **C4.** For a selection of 0 or more than 2 objects, the UI's
creation slot warns and aborts: the UI state (registry included) is
unchanged and no scene operation is issued. -/
theorem C4_selection_guard (selection scene : List String)
    (locked : List (String × String)) (p : Params) (st : UIState)
    (fuel : Nat) (h : selection.length = 0 ∨ 2 < selection.length) :
    ∃ msg, SpaceSwitcherUI.create_temp_ctrl selection scene locked p st fuel =
      some (st, [], Outcome.warned msg) := by
  rcases h with h | h
  · exact ⟨"At least one object must be selected.",
      by simp [SpaceSwitcherUI.create_temp_ctrl, h]⟩
  · refine ⟨"No more than two objects must be selected.", ?_⟩
    have h1 : ¬selection.length < 1 := by omega
    simp [SpaceSwitcherUI.create_temp_ctrl, h1, h]

/-- **C4 witness.** The guard evaluated at the empty selection. -/
theorem C4_selection_guard_witness :
    ([] : List String).length = 0 ∧
    ∃ msg, SpaceSwitcherUI.create_temp_ctrl [] [] [] sample_params
      empty_ui_state 1 = some (empty_ui_state, [], Outcome.warned msg) :=
  ⟨rfl, C4_selection_guard [] [] [] sample_params empty_ui_state 1
    (Or.inl rfl)⟩

/-- A successful `_make_namespace` search that started at index `i` stops
at the first index `j ≥ i` whose candidate name is not in the scene. -/
theorem make_namespace_loop_spec (scene : List String) (child : String) :
    ∀ fuel i nm, make_namespace_loop scene child fuel i = some nm →
      ∃ j, i ≤ j ∧ nm = candidate_name child j ∧
        candidate_name child j ∉ scene ∧
        ∀ k, i ≤ k → k < j → candidate_name child k ∈ scene := by
  intro fuel
  induction fuel with
  | zero => intro i nm h; simp [make_namespace_loop] at h
  | succ f ih =>
      intro i nm h
      rw [make_namespace_loop] at h
      by_cases hc : candidate_name child i ∈ scene
      · rw [if_pos hc] at h
        obtain ⟨j, hij, hnm, hnot, hall⟩ := ih (i + 1) nm h
        refine ⟨j, by omega, hnm, hnot, fun k hk1 hk2 => ?_⟩
        rcases Nat.eq_or_lt_of_le hk1 with heq | hk
        · exact heq ▸ hc
        · exact hall k hk hk2
      · rw [if_neg hc] at h
        cases h
        exact ⟨i, Nat.le_refl i, rfl, hc,
          fun k hk1 hk2 => absurd (Nat.lt_of_le_of_lt hk1 hk2)
            (Nat.lt_irrefl i)⟩

/-- **C6.** Whenever the naming loop produces a name it is absent from the
scene at generation time; and generating a second name for the same child
after the first controller's node entered the scene yields the candidate
at a strictly larger numeric suffix index. -/
theorem C6_unique_name_increment (scene : List String) (child : String)
    (f₁ f₂ : Nat) (nm₁ nm₂ : String)
    (h₁ : make_namespace scene child f₁ = some nm₁)
    (h₂ : make_namespace (nm₁ :: scene) child f₂ = some nm₂) :
    nm₁ ∉ scene ∧ nm₂ ∉ nm₁ :: scene ∧
      ∃ i j, nm₁ = candidate_name child i ∧ nm₂ = candidate_name child j ∧
        i < j := by
  obtain ⟨i, -, hnm₁, hnot₁, hall₁⟩ :=
    make_namespace_loop_spec scene child f₁ 0 nm₁ h₁
  obtain ⟨j, -, hnm₂, hnot₂, hall₂⟩ :=
    make_namespace_loop_spec (nm₁ :: scene) child f₂ 0 nm₂ h₂
  subst hnm₁
  subst hnm₂
  refine ⟨hnot₁, hnot₂, i, j, rfl, rfl, ?_⟩
  rcases Nat.lt_trichotomy i j with h | h | h
  · exact h
  · exact absurd (h ▸ List.mem_cons_self _ _) hnot₂
  · exact absurd
      (List.mem_cons_of_mem _ (hall₁ j (Nat.zero_le j) h)) hnot₂

/-- **C6 witness.** Two creations for child `pCube1` over an initially
empty scene: the first name has no suffix, the second the suffix `_1`. -/
theorem C6_unique_name_increment_witness :
    make_namespace [] "pCube1" 1 = some "pCube1_tmp_CC" ∧
    make_namespace ["pCube1_tmp_CC"] "pCube1" 2 = some "pCube1_tmp_CC_1" ∧
    ("pCube1_tmp_CC" ∉ ([] : List String) ∧
     "pCube1_tmp_CC_1" ∉ ["pCube1_tmp_CC"] ∧
     ∃ i j, "pCube1_tmp_CC" = candidate_name "pCube1" i ∧
       "pCube1_tmp_CC_1" = candidate_name "pCube1" j ∧ i < j) :=
  ⟨by decide, by decide,
   C6_unique_name_increment [] "pCube1" 1 2 "pCube1_tmp_CC"
     "pCube1_tmp_CC_1" (by decide) (by decide)⟩

/-- A delete performed with the `bake_down` flag cleared never bakes. -/
theorem delete_no_bake (st : UIState) (h : st.bake_down = false) :
    ((delete_temp_cc st).2.all (fun op => !is_bake op)) = true := by
  unfold delete_temp_cc
  cases hfind : st.space_switcher.temp_controllers.find?
      (fun e => e.name == current_text st) with
  | none => simp [hfind]
  | some e => simp [hfind, h, kill_hierarchy, is_bake]

/-- **C8.** For any UI state whose registry resolves the combo box's
current text to entry `e`: the bake-back action bakes the child and only
then deletes the controller hierarchy; a plain delete deletes the
hierarchy without baking; and bake-back consumes the flag, so a subsequent
plain delete issues no bake at all. -/
theorem C8_bake_back_then_delete (st : UIState) (e : RegistryEntry)
    (h : st.space_switcher.temp_controllers.find?
      (fun x => x.name == current_text st) = some e) :
    (bake_back_anim st).2 =
      [SceneOp.bakeResults e.object.child_object,
       SceneOp.deleteNode e.object.grp_name] ∧
    (delete_temp_cc { st with bake_down := false }).2 =
      [SceneOp.deleteNode e.object.grp_name] ∧
    (bake_back_anim st).1.bake_down = false ∧
    ((delete_temp_cc (bake_back_anim st).1).2.all
      (fun op => !is_bake op)) = true := by
  have h' : ∀ b : Bool,
      ({ st with bake_down := b } : UIState).space_switcher.temp_controllers.find?
        (fun x => x.name == current_text { st with bake_down := b }) = some e := by
    intro b; exact h
  refine ⟨?_, ?_, ?_, ?_⟩
  · simp [bake_back_anim, delete_temp_cc, h' true, bake_child_anim,
      bake_anim, kill_hierarchy]
  · simp [delete_temp_cc, h' false, kill_hierarchy]
  · simp [bake_back_anim, delete_temp_cc]
  · exact delete_no_bake _ (by simp [bake_back_anim, delete_temp_cc])

/-- **C8 witness.** The theorem evaluated at the one-controller state. -/
theorem C8_bake_back_then_delete_witness :
    (bake_back_anim c1_state).2 =
      [SceneOp.bakeResults "pCube1", SceneOp.deleteNode "pCube1_tmp_cc_GRP"] ∧
    (delete_temp_cc { c1_state with bake_down := false }).2 =
      [SceneOp.deleteNode "pCube1_tmp_cc_GRP"] ∧
    (bake_back_anim c1_state).1.bake_down = false ∧
    ((delete_temp_cc (bake_back_anim c1_state).1).2.all
      (fun op => !is_bake op)) = true :=
  C8_bake_back_then_delete c1_state ⟨"pCube1_tmp_CC", sample_tc⟩ (by decide)

/-- **C9.** Whenever the child object has a locked axis of a transform
channel selected for constraint, `TempControl.create_temp_ctrl` issues no
scene operation at all and returns the warning naming the (nonempty)
locked-channel list. -/
theorem C9_locked_channel_abort (tc : TempControl)
    (locked : List (String × String)) (mg : Option String)
    (h : ∃ t a, t ∈ transforms_for tc ∧ a ∈ axes_list ∧
      lock_query locked tc.child_object (t ++ a) = true) :
    get_locked_transforms tc locked ≠ [] ∧
    tc.create_temp_ctrl locked mg =
      ([], Outcome.warned
        (locked_warning_msg tc (get_locked_transforms tc locked))) := by
  obtain ⟨t, a, ht, ha, hl⟩ := h
  have hmem : (t ++ a) ∈ get_locked_transforms tc locked := by
    refine List.mem_flatten.mpr ⟨_, List.mem_map_of_mem _ ht, ?_⟩
    exact List.mem_map_of_mem _ (List.mem_filter.mpr ⟨ha, hl⟩)
  have hne : get_locked_transforms tc locked ≠ [] :=
    List.ne_nil_of_mem hmem
  exact ⟨hne, by simp [TempControl.create_temp_ctrl, hne]⟩

/-- **C9 witness.** A child with `translateX` locked and location chosen. -/
theorem C9_locked_channel_abort_witness :
    get_locked_transforms sample_tc [("pCube1", "translateX")] ≠ [] ∧
    sample_tc.create_temp_ctrl [("pCube1", "translateX")] none =
      ([], Outcome.warned (locked_warning_msg sample_tc
        (get_locked_transforms sample_tc [("pCube1", "translateX")]))) :=
  C9_locked_channel_abort sample_tc [("pCube1", "translateX")] none
    ⟨"translate", "X", by decide, by decide, by decide⟩

/-- When location is enabled, the point snap pair for any selected child
is in the `snap_to` trace. -/
theorem snap_to_mem_point {children : List String} {parent c : String}
    (rot scl : Bool) (hc : c ∈ children) :
    SceneOp.createConstraint ConstKind.point parent c
        ∈ snap_to children parent true rot scl ∧
    SceneOp.deleteConstraint ConstKind.point parent c
        ∈ snap_to children parent true rot scl := by
  constructor <;>
    (refine List.mem_flatten.mpr ⟨_, List.mem_map_of_mem _ hc, ?_⟩;
     cases rot <;> cases scl <;> simp)

/-- When rotation is enabled, the orient snap pair for any selected child
is in the `snap_to` trace. -/
theorem snap_to_mem_orient {children : List String} {parent c : String}
    (loc scl : Bool) (hc : c ∈ children) :
    SceneOp.createConstraint ConstKind.orient parent c
        ∈ snap_to children parent loc true scl ∧
    SceneOp.deleteConstraint ConstKind.orient parent c
        ∈ snap_to children parent loc true scl := by
  constructor <;>
    (refine List.mem_flatten.mpr ⟨_, List.mem_map_of_mem _ hc, ?_⟩;
     cases loc <;> cases scl <;> simp)

/-- When scale is enabled, the scale snap pair for any selected child is
in the `snap_to` trace. -/
theorem snap_to_mem_scale {children : List String} {parent c : String}
    (loc rot : Bool) (hc : c ∈ children) :
    SceneOp.createConstraint ConstKind.scale parent c
        ∈ snap_to children parent loc rot true ∧
    SceneOp.deleteConstraint ConstKind.scale parent c
        ∈ snap_to children parent loc rot true := by
  constructor <;>
    (refine List.mem_flatten.mpr ⟨_, List.mem_map_of_mem _ hc, ?_⟩;
     cases loc <;> cases rot <;> simp)

/-- **C10.** Fewer than two selected objects: the quick-snap action warns
and issues no operation. Two or more: it completes, and for every selected
object except the last and every enabled channel, a constraint from the
last selected object is created and also deleted. -/
theorem C10_quick_snap (selection : List String) (loc rot scl : Bool) :
    (selection.length < 2 →
      snap_to_selected selection loc rot scl =
        (Outcome.warned "At least two objects must be selected.", [])) ∧
    (2 ≤ selection.length →
      (snap_to_selected selection loc rot scl).1 = Outcome.ok ∧
      ∀ c ∈ selection.dropLast,
        (loc = true →
          SceneOp.createConstraint ConstKind.point (selection.getLastD "") c
              ∈ (snap_to_selected selection loc rot scl).2 ∧
          SceneOp.deleteConstraint ConstKind.point (selection.getLastD "") c
              ∈ (snap_to_selected selection loc rot scl).2) ∧
        (rot = true →
          SceneOp.createConstraint ConstKind.orient (selection.getLastD "") c
              ∈ (snap_to_selected selection loc rot scl).2 ∧
          SceneOp.deleteConstraint ConstKind.orient (selection.getLastD "") c
              ∈ (snap_to_selected selection loc rot scl).2) ∧
        (scl = true →
          SceneOp.createConstraint ConstKind.scale (selection.getLastD "") c
              ∈ (snap_to_selected selection loc rot scl).2 ∧
          SceneOp.deleteConstraint ConstKind.scale (selection.getLastD "") c
              ∈ (snap_to_selected selection loc rot scl).2)) := by
  constructor
  · intro h
    simp [snap_to_selected, h]
  · intro h
    have h2 : ¬selection.length < 2 := by omega
    refine ⟨by simp [snap_to_selected, h2], ?_⟩
    intro c hc
    refine ⟨fun hloc => ?_, fun hrot => ?_, fun hscl => ?_⟩
    · subst hloc
      simpa [snap_to_selected, h2] using snap_to_mem_point rot scl hc
    · subst hrot
      simpa [snap_to_selected, h2] using snap_to_mem_orient loc scl hc
    · subst hscl
      simpa [snap_to_selected, h2] using snap_to_mem_scale loc rot hc

/-- **C10 witness.** The warning branch at one selected object and the
snap branch at two. -/
theorem C10_quick_snap_witness :
    snap_to_selected ["pCube1"] true true false =
      (Outcome.warned "At least two objects must be selected.", []) ∧
    (snap_to_selected ["pSphere1", "pCube1"] true true false).1 =
      Outcome.ok ∧
    SceneOp.createConstraint ConstKind.point "pCube1" "pSphere1"
      ∈ (snap_to_selected ["pSphere1", "pCube1"] true true false).2 ∧
    SceneOp.deleteConstraint ConstKind.point "pCube1" "pSphere1"
      ∈ (snap_to_selected ["pSphere1", "pCube1"] true true false).2 := by
  have h1 := (C10_quick_snap ["pCube1"] true true false).1 (by decide)
  have h2 := (C10_quick_snap ["pSphere1", "pCube1"] true true false).2
    (by decide)
  have h3 := (h2.2 "pSphere1" (by decide)).1 rfl
  exact ⟨h1, h2.1, h3.1, h3.2⟩

end SpaceSwitcherUtils

